import Mathlib

/-!
Shallow embedding of the calculation-and-reporting pipeline of the
measurement-statistics program (sources: `src/models/measurement.py`,
`src/core/file_reader.py`, `src/core/calculator.py`, `src/core/processor.py`).

Modelling conventions:
* Python floats are modelled as exact rationals (`ℚ`).  The two primitive
  float operations whose bit patterns the model does not reproduce —
  `math.sqrt` (inside `statistics.stdev`) and `str()` of a float (used in
  frequency lines) — are passed in as explicit parameters `fsqrt : ℚ → ℚ`
  and `pyStr : ℚ → String`, so every pipeline theorem below holds for
  every choice of those primitives.  The mathematical value of the
  standard deviation gets a separate exact model over `ℝ`
  (`stdevCalculate`).
* Python string primitives (`strip`, `split`, `replace`, `lower`, `in`)
  are re-implemented on character lists by structural recursion so that
  concrete instances evaluate inside the kernel; each mirrors the CPython
  behaviour on the inputs the program feeds it.
* Python dictionaries are modelled as association lists in insertion
  order; `dict.get(k, d)` is `dictGet`.
* Filesystem writes are modelled as a trace of `(path, content)` pairs;
  an oracle `failOn : String → Option String` says which `open()` calls
  raise (and with which message), modelling the I/O exceptions that the
  `try/except` blocks of the source catch.
-/

/-! ## Python string primitives -/

/-- Python whitespace for `str.strip()`. -/
def isPySpace (c : Char) : Bool :=
  c = ' ' ∨ c = '\t' ∨ c = '\n' ∨ c = '\r' ∨ c = '\x0b' ∨ c = '\x0c'

/-- Python `str.strip()`. -/
def pyStrip (s : String) : String :=
  ⟨(((s.data.dropWhile isPySpace).reverse.dropWhile isPySpace).reverse)⟩

/-- Worker for `pySplit`; `fuel` only forces structural recursion and is
always at least the length of the remaining input plus one. -/
def splitGo (sep : List Char) : ℕ → List Char → List Char → List (List Char)
  | 0, acc, _ => [acc.reverse]
  | _ + 1, acc, [] => [acc.reverse]
  | fuel + 1, acc, c :: t =>
    if sep.isPrefixOf (c :: t) then
      acc.reverse :: splitGo sep fuel [] (List.drop sep.length (c :: t))
    else
      splitGo sep fuel (c :: acc) t

/-- Python `s.split(sep)` with a nonempty separator. -/
def pySplit (s sep : String) : List String :=
  (splitGo sep.data (s.data.length + 1) [] s.data).map (fun cs => ⟨cs⟩)

/-- Worker for `pyReplace`; same fuel discipline as `splitGo`. -/
def replaceGo (old new : List Char) : ℕ → List Char → List Char
  | 0, l => l
  | _ + 1, [] => []
  | fuel + 1, c :: t =>
    if old.isPrefixOf (c :: t) then
      new ++ replaceGo old new fuel (List.drop old.length (c :: t))
    else
      c :: replaceGo old new fuel t

/-- Python `s.replace(old, new)` with a nonempty `old`. -/
def pyReplace (s old new : String) : String :=
  ⟨replaceGo old.data new.data (s.data.length + 1) s.data⟩

/-- Worker for `strContains`. -/
def containsGo (pat : List Char) : List Char → Bool
  | [] => pat.isEmpty
  | c :: t => pat.isPrefixOf (c :: t) || containsGo pat t

/-- Python substring containment `pat in s`. -/
def strContains (s pat : String) : Bool :=
  containsGo pat.data s.data

/-- ASCII lower-casing of one character (Python `str.lower` on the ASCII
operation names the program uses). -/
def charLower (c : Char) : Char :=
  match c with
  | 'A' => 'a' | 'B' => 'b' | 'C' => 'c' | 'D' => 'd' | 'E' => 'e'
  | 'F' => 'f' | 'G' => 'g' | 'H' => 'h' | 'I' => 'i' | 'J' => 'j'
  | 'K' => 'k' | 'L' => 'l' | 'M' => 'm' | 'N' => 'n' | 'O' => 'o'
  | 'P' => 'p' | 'Q' => 'q' | 'R' => 'r' | 'S' => 's' | 'T' => 't'
  | 'U' => 'u' | 'V' => 'v' | 'W' => 'w' | 'X' => 'x' | 'Y' => 'y'
  | 'Z' => 'z' | other => other

/-- Python `str.lower()`. -/
def pyLower (s : String) : String :=
  ⟨s.data.map charLower⟩

/-- Python `s.endswith(suffix)`. -/
def pyEndsWith (s suffix : String) : Bool :=
  suffix.data.isSuffixOf s.data

/-- `dict.get(key, default)` on an insertion-ordered association list. -/
def dictGet (d : List (String × String)) (key default : String) : String :=
  match d.lookup key with
  | some v => v
  | none => default

/-- Python `int(q)` on a float: truncation toward zero. -/
def pyInt (q : ℚ) : ℤ :=
  if 0 ≤ q then ⌊q⌋ else ⌈q⌉

/-- The integer `round(|q| * 100)` computed directly on the reduced
fraction: `⌊|q|·100 + 1/2⌋ = ⌊(200·|num| + den) / (2·den)⌋`. -/
def cents (q : ℚ) : ℕ :=
  (200 * q.num.natAbs + q.den) / (2 * q.den)

/-- Fixed two-decimal rendering, Python's `format(x, ".2f")`.
CPython rounds the nearest binary double; this exact-rational model
rounds the rational, which agrees on every value the claims exercise (in
particular on every value exactly representable with two decimals). -/
def formatFixed2 (q : ℚ) : String :=
  (if q.num < 0 then "-" else "") ++ toString (cents q / 100) ++ "." ++
    (if cents q % 100 < 10 then "0" else "") ++ toString (cents q % 100)

/-! ## Data model (`src/models/measurement.py`) -/

/-- Class `Measurement`: one timestamped reading; `value` is the
already-`float()`-converted number. -/
structure Measurement where
  time : String
  value : ℚ
deriving DecidableEq, Repr

/-- Class `MeasurementFile`: path, metadata dictionary and ordered
measurement list. -/
structure MFile where
  filePath : String
  metadata : List (String × String)
  measurements : List Measurement
deriving DecidableEq, Repr

/-- `MeasurementFile.get_values`. -/
def MFile.getValues (f : MFile) : List ℚ :=
  f.measurements.map (·.value)

/-! ## FileReader.parse_metadata (`src/core/file_reader.py` lines 8–37) -/

/-- `FileReader.parse_metadata`: best-effort extraction of
`id`/`type`/`location`/`date` from the header line, building the dict in
insertion order exactly as the Python assignments do.  Total by
construction (the Python function cannot raise either: every indexing it
performs is guarded by the membership test just before it). -/
def parseMetadata (headerLine : String) : List (String × String) :=
  let parts := pySplit (pyStrip headerLine) " - "
  let m1 : List (String × String) :=
    if parts ≠ [] then
      let firstPart := pyStrip (parts.getD 0 "")
      let mId :=
        if strContains firstPart "id:" then
          let idSection := pyStrip ((pySplit firstPart "ölçüm:").getD 0 "")
          if strContains idSection "id:" then
            [("id", pyStrip (pyReplace idSection "id:" ""))]
          else []
        else []
      let mType :=
        if strContains firstPart "ölçüm:" then
          [("type", pyStrip ((pySplit firstPart "ölçüm:").getD 1 ""))]
        else []
      mId ++ mType
    else []
  let m2 :=
    if 1 < parts.length ∧ strContains (parts.getD 1 "") "yer:" then
      m1 ++ [("location", pyStrip ((pySplit (parts.getD 1 "") ":").getD 1 ""))]
    else m1
  if 2 < parts.length ∧ strContains (parts.getD 2 "") "tarih:" then
    m2 ++ [("date", pyStrip ((pySplit (parts.getD 2 "") ":").getD 1 ""))]
  else m2

/-! ## FileReader.read_file (`src/core/file_reader.py` lines 39–66) -/

/-- The measurement-line loop of `FileReader.read_file`.  Blank lines and
lines without a comma are skipped; a line whose comma-split has other
than two parts makes the tuple unpacking raise `ValueError`, and an
unparsable value part makes `float()` raise inside
`Measurement.__init__`; either exception aborts the loop (it is caught by
the surrounding `try`), keeping only the measurements appended so far.
`fp` is the Python `float()` parser (`none` = `ValueError`). -/
def parseLines (fp : String → Option ℚ) : List String → List Measurement
  | [] => []
  | l :: rest =>
    let line := pyStrip l
    if line ≠ "" ∧ strContains line "," then
      let parts := pySplit line ","
      if parts.length = 2 then
        match fp (pyStrip (parts.getD 1 "")) with
        | some v => ⟨pyStrip (parts.getD 0 ""), v⟩ :: parseLines fp rest
        | none => []
      else []
    else parseLines fp rest

/-- `FileReader.read_file`: `content` is `readlines()` of the opened file
(`none` = the `open` itself raised; the exception is caught and the empty
object built beforehand is returned). -/
def readFile (fp : String → Option ℚ) (path : String)
    (content : Option (List String)) : MFile :=
  match content with
  | none => ⟨path, [], []⟩
  | some [] => ⟨path, [], []⟩
  | some (header :: body) => ⟨path, parseMetadata header, parseLines fp body⟩

/-! ## Statistics strategies (`src/core/calculator.py` lines 28–119) -/

/-- `AverageStrategy.calculate`. -/
def averageCalculate (values : List ℚ) : ℚ :=
  if values = [] then 0 else values.sum / values.length

/-- `MaximumStrategy.calculate` (Python `max` of a nonempty list). -/
def maximumCalculate (values : List ℚ) : ℚ :=
  match values with
  | [] => 0
  | v :: rest => rest.foldl max v

/-- `MinimumStrategy.calculate` (Python `min` of a nonempty list). -/
def minimumCalculate (values : List ℚ) : ℚ :=
  match values with
  | [] => 0
  | v :: rest => rest.foldl min v

/-- Sample variance, the radicand of `statistics.stdev`:
`Σ (x - mean)² / (n - 1)`. -/
def sampleVariance (values : List ℚ) : ℚ :=
  let mean := values.sum / values.length
  (values.map (fun x => (x - mean) ^ 2)).sum / ((values.length : ℚ) - 1)

/-- `StandardDeviationStrategy.calculate`, exact mathematical model:
fewer than 2 values yield 0, otherwise the square root of the sample
variance (`statistics.stdev` computes exactly this, in floats). -/
noncomputable def stdevCalculate (values : List ℚ) : ℝ :=
  if values.length < 2 then 0 else Real.sqrt ((sampleVariance values : ℚ) : ℝ)

/-- One step of `collections.Counter`: bump the count of `v`, preserving
first-occurrence key order. -/
def bumpCount : List (ℚ × ℕ) → ℚ → List (ℚ × ℕ)
  | [], v => [(v, 1)]
  | (k, c) :: t, v => if k = v then (k, c + 1) :: t else (k, c) :: bumpCount t v

/-- `FrequencyStrategy.calculate` (`dict(Counter(values))`). -/
def frequencyCalculate (values : List ℚ) : List (ℚ × ℕ) :=
  if values = [] then [] else values.foldl bumpCount []

/-- `statistics.median`: middle element of the sorted list for odd
length, average of the two middle elements for even length. -/
def medianOfSorted (s : List ℚ) : ℚ :=
  if s.length % 2 = 1 then s.getD (s.length / 2) 0
  else (s.getD (s.length / 2 - 1) 0 + s.getD (s.length / 2) 0) / 2

/-- Insertion into a ≤-sorted list (used to model Python sorting). -/
def insertRat (v : ℚ) : List ℚ → List ℚ
  | [] => [v]
  | x :: t => if v ≤ x then v :: x :: t else x :: insertRat v t

/-- Ascending sort of a rational list (Python `sorted`). -/
def sortRats (l : List ℚ) : List ℚ :=
  l.foldr insertRat []

/-- `MedianStrategy.calculate`. -/
def medianCalculate (values : List ℚ) : ℚ :=
  if values = [] then 0 else medianOfSorted (sortRats values)

/-- The common scalar `format_result` body
`f"<label>: {result if result == int(result) else result:.2f}"`.
Note the Python conditional expression yields `result` in both branches
and the `.2f` format spec applies to the conditional's value, so the
rendering is always fixed two-decimal. -/
def scalarFormatResult (label : String) (result : ℚ) : String :=
  label ++ ": " ++ formatFixed2 (if result = (pyInt result : ℚ) then result else result)

/-- `AverageStrategy.format_result`. -/
def averageFormatResult (result : ℚ) : String := scalarFormatResult "avg" result

/-- `MaximumStrategy.format_result`. -/
def maximumFormatResult (result : ℚ) : String := scalarFormatResult "max" result

/-- `MinimumStrategy.format_result`. -/
def minimumFormatResult (result : ℚ) : String := scalarFormatResult "min" result

/-- `MedianStrategy.format_result`. -/
def medianFormatResult (result : ℚ) : String := scalarFormatResult "median" result

/-- `StandardDeviationStrategy.format_result`. -/
def stdevFormatResult (result : ℚ) : String := scalarFormatResult "std" result

/-! ## Strategy objects and CalculatorFactory
(`src/core/calculator.py` lines 122–155) -/

/-- A calculation result: scalar for average/maximum/minimum/standard
deviation/median, an insertion-ordered frequency dictionary for the
frequency strategy. -/
inductive CalcResult where
  | num (q : ℚ)
  | freq (d : List (ℚ × ℕ))
deriving DecidableEq, Repr

/-- One concrete `StatisticsStrategy`: its `get_name`, its `calculate`,
and its `format_result` on scalars (`fmtNum`). -/
structure Strategy where
  name : String
  calculate : List ℚ → CalcResult
  fmtNum : ℚ → String

/-- `AverageStrategy`. -/
def averageStrategy : Strategy :=
  ⟨"average", fun vs => .num (averageCalculate vs), averageFormatResult⟩

/-- `MaximumStrategy`. -/
def maximumStrategy : Strategy :=
  ⟨"maximum", fun vs => .num (maximumCalculate vs), maximumFormatResult⟩

/-- `MinimumStrategy`. -/
def minimumStrategy : Strategy :=
  ⟨"minimum", fun vs => .num (minimumCalculate vs), minimumFormatResult⟩

/-- `StandardDeviationStrategy`; `fsqrt` is the float square-root
primitive used by `statistics.stdev`. -/
def stdevStrategy (fsqrt : ℚ → ℚ) : Strategy :=
  ⟨"standarddeviation",
    fun vs => .num (if vs.length < 2 then 0 else fsqrt (sampleVariance vs)),
    stdevFormatResult⟩

/-- `FrequencyStrategy`.  `fmtNum` is never invoked: `calculate` always
returns a dict, and the writer routes dicts to its own frequency
formatting (Python's `format_result` applied to a scalar would raise). -/
def frequencyStrategy : Strategy :=
  ⟨"frequency", fun vs => .freq (frequencyCalculate vs), fun _ => ""⟩

/-- `MedianStrategy`. -/
def medianStrategy : Strategy :=
  ⟨"median", fun vs => .num (medianCalculate vs), medianFormatResult⟩

/-- `CalculatorFactory.create_calculator`: dictionary lookup on the
lower-cased operation name; unknown names yield `None`. -/
def createCalculator (fsqrt : ℚ → ℚ) (calculationType : String) : Option Strategy :=
  (List.lookup (pyLower calculationType)
    [("average", averageStrategy),
     ("maximum", maximumStrategy),
     ("minimum", minimumStrategy),
     ("standard_deviation", stdevStrategy fsqrt),
     ("frequency", frequencyStrategy),
     ("median", medianStrategy)])

/-- `CalculatorContext.calculate`: delegates to the bound strategy, or
yields `None` when no strategy is bound. -/
def calculatorContextCalculate (strategy : Option Strategy) (values : List ℚ) :
    Option CalcResult :=
  match strategy with
  | some s => some (s.calculate values)
  | none => none

/-! ## ResultWriter (`src/core/calculator.py` lines 158–232) -/

/-- `ResultWriter._get_measurement_unit`. -/
def getMeasurementUnit (measurementType : String) : String :=
  if measurementType = "temperature" then "Derece"
  else if measurementType = "humidity" then "%"
  else ""

/-- Insertion into a list of pairs sorted ascending by key. -/
def insertPair (p : ℚ × ℕ) : List (ℚ × ℕ) → List (ℚ × ℕ)
  | [] => [p]
  | q :: t => if p.1 ≤ q.1 then p :: q :: t else q :: insertPair p t

/-- Python `sorted(result.items())` (keys are distinct, so sorting by
key equals sorting the pairs). -/
def sortPairs (l : List (ℚ × ℕ)) : List (ℚ × ℕ) :=
  l.foldr insertPair []

/-- `ResultWriter._format_file_metadata`. -/
def formatFileMetadata (f : MFile) : String :=
  "id:" ++ dictGet f.metadata "id" "unknown" ++
  " ölçüm: " ++ dictGet f.metadata "type" "unknown" ++
  " - yer: " ++ dictGet f.metadata "location" "unknown" ++
  " - tarih: " ++ dictGet f.metadata "date" "unknown"

/-- The newline-joined frequency lines written by the `ResultWriter`,
with the measurement-type unit between value and count.  `pyStr` is
Python `str()` of a float. -/
def freqBlock (pyStr : ℚ → String) (unit : String) (d : List (ℚ × ℕ)) : String :=
  String.intercalate "\n"
    ((sortPairs d).map (fun p => pyStr p.1 ++ " " ++ unit ++ " " ++ toString p.2 ++ " defa ölçüldü"))

/-- `FrequencyStrategy.format_result`, the unit-less fallback rendering
(the writer never uses it; kept for completeness). -/
def frequencyFormatResult (pyStr : ℚ → String) (result : List (ℚ × ℕ)) : String :=
  String.intercalate "\n"
    ((sortPairs result).map (fun p => pyStr p.1 ++ " " ++ toString p.2 ++ " defa ölçüldü"))

/-- The text the per-file writer emits for one `(file, result)` pair:
frequency results get a metadata line, the sorted value/unit/count lines
and a dash separator; scalar results get one `metadata , formatted`
line. -/
def fileEntryText (pyStr : ℚ → String) (measurementType : String) (strat : Strategy) :
    MFile × CalcResult → String
  | (f, .freq d) =>
    formatFileMetadata f ++ "\n" ++
      freqBlock pyStr (getMeasurementUnit measurementType) d ++ "\n---------------\n"
  | (f, .num q) =>
    formatFileMetadata f ++ " , " ++ strat.fmtNum q ++ "\n"

/-- Whole content of `<operation>degerler.txt`. -/
def fileResultContent (pyStr : ℚ → String) (measurementType : String) (strat : Strategy)
    (fileResults : List (MFile × CalcResult)) : String :=
  String.join (fileResults.map (fileEntryText pyStr measurementType strat))

/-- `ResultWriter.write_file_result`: one write of the per-file report,
or the I/O exception chosen by the oracle for that path. -/
def writeFileResult (pyStr : ℚ → String) (failOn : String → Option String)
    (outputDir measurementType : String) (strat : Strategy)
    (fileResults : List (MFile × CalcResult)) : Except String (String × String) :=
  let path := outputDir ++ "/" ++ measurementType ++ "/" ++ strat.name ++ "degerler.txt"
  match failOn path with
  | some e => .error e
  | none => .ok (path, fileResultContent pyStr measurementType strat fileResults)

/-- Content of `global<operation>.txt`: sorted frequency lines without a
metadata line, or the scalar `format_result` string. -/
def globalResultContent (pyStr : ℚ → String) (measurementType : String)
    (strat : Strategy) : CalcResult → String
  | .freq d => freqBlock pyStr (getMeasurementUnit measurementType) d
  | .num q => strat.fmtNum q

/-- `ResultWriter.write_global_result`. -/
def writeGlobalResult (pyStr : ℚ → String) (failOn : String → Option String)
    (outputDir measurementType : String) (strat : Strategy)
    (result : CalcResult) : Except String (String × String) :=
  let path := outputDir ++ "/" ++ measurementType ++ "/global" ++ strat.name ++ ".txt"
  match failOn path with
  | some e => .error e
  | none => .ok (path, globalResultContent pyStr measurementType strat result)

/-! ## CalculationProcessor (`src/core/processor.py`) -/

/-- Result of `process_calculations`, plus the ordered trace of
successful file writes the run performed. -/
structure ProcResult where
  status : String
  message : String
  writes : List (String × String)
deriving DecidableEq, Repr

/-- The inner operation loop of `process_calculations` for one
measurement type: per-file results for files with nonempty values, the
per-file report write, and (on request) the global write; the first
uncaught exception ends the whole loop, keeping earlier writes. -/
def procOps (fsqrt : ℚ → ℚ) (pyStr : ℚ → String) (failOn : String → Option String)
    (outputDir : String) (useGlobal : Bool) (measurementType : String)
    (files : List MFile) : List String → List (String × String) × Option String
  | [] => ([], none)
  | op :: rest =>
    match createCalculator fsqrt op with
    | none => procOps fsqrt pyStr failOn outputDir useGlobal measurementType files rest
    | some strat =>
      let fileResults := (files.filter (fun f => !f.getValues.isEmpty)).map
        (fun f => (f, strat.calculate f.getValues))
      match writeFileResult pyStr failOn outputDir measurementType strat fileResults with
      | .error e => ([], some e)
      | .ok w =>
        if useGlobal then
          let allValues := (files.map MFile.getValues).flatten
          if allValues ≠ [] then
            match writeGlobalResult pyStr failOn outputDir measurementType strat
                (strat.calculate allValues) with
            | .error e => ([w], some e)
            | .ok wg =>
              let r := procOps fsqrt pyStr failOn outputDir useGlobal measurementType files rest
              (w :: wg :: r.1, r.2)
          else
            let r := procOps fsqrt pyStr failOn outputDir useGlobal measurementType files rest
            (w :: r.1, r.2)
        else
          let r := procOps fsqrt pyStr failOn outputDir useGlobal measurementType files rest
          (w :: r.1, r.2)

/-- The outer loop of `process_calculations` over the measurement-type
dictionary; types with an empty file list are skipped. -/
def procTypes (fsqrt : ℚ → ℚ) (pyStr : ℚ → String) (failOn : String → Option String)
    (outputDir : String) (useGlobal : Bool) (operations : List String) :
    List (String × List MFile) → List (String × String) × Option String
  | [] => ([], none)
  | (mt, files) :: rest =>
    if files.isEmpty then
      procTypes fsqrt pyStr failOn outputDir useGlobal operations rest
    else
      match procOps fsqrt pyStr failOn outputDir useGlobal mt files operations with
      | (ws, some e) => (ws, some e)
      | (ws, none) =>
        let r := procTypes fsqrt pyStr failOn outputDir useGlobal operations rest
        (ws ++ r.1, r.2)

/-- `CalculationProcessor.process_calculations`: the whole loop inside
`try/except`; on success the message names the output directory, on any
exception the status flips to `"Error"` with the exception text embedded.
Total: the model cannot raise, mirroring the blanket `except`. -/
def processCalculations (fsqrt : ℚ → ℚ) (pyStr : ℚ → String)
    (failOn : String → Option String) (directory : String)
    (measurementFiles : List (String × List MFile)) (operations : List String)
    (useGlobal : Bool) : ProcResult :=
  let outputDirectory := directory ++ "/result"
  match procTypes fsqrt pyStr failOn outputDirectory useGlobal operations measurementFiles with
  | (ws, none) =>
    ⟨"Success",
      "The calculations were successfully performed. Folder containing results: " ++
        outputDirectory, ws⟩
  | (ws, some e) =>
    ⟨"Error", "An error occurred during the calculation: " ++ e ++ ". Please try again.", ws⟩

/-! ## Filesystem model for report writes -/

/-- Write one file (`open(..., "w")` semantics: truncate and replace). -/
def fsSet (fs : List (String × String)) (p c : String) : List (String × String) :=
  (p, c) :: fs.filter (fun e => !(e.1 == p))

/-- Content of a file, `none` if absent. -/
def fsGet (fs : List (String × String)) (p : String) : Option String :=
  fs.lookup p

/-- Replay a write trace onto a filesystem. -/
def applyWrites (fs : List (String × String)) : List (String × String) → List (String × String)
  | [] => fs
  | w :: t => applyWrites (fsSet fs w.1 w.2) t

/-! ## FileReader.scan_directory (`src/core/file_reader.py` lines 68–101) -/

/-- The on-disk inputs `scan_directory` consults: which directories
exist (with their entries) and which files open successfully (with their
lines). -/
structure Disk where
  dirs : List (String × List String)
  files : List (String × List String)

/-- One subdirectory pass of `scan_directory`: skip it when missing,
else `read_file` every `.txt` entry in listing order. -/
def readAllTxt (fp : String → Option ℚ) (d : Disk) (dirPath : String) : List MFile :=
  match d.dirs.lookup dirPath with
  | none => []
  | some names =>
    (names.filter (fun n => pyEndsWith n ".txt")).map
      (fun n => readFile fp (dirPath ++ "/" ++ n) (d.files.lookup (dirPath ++ "/" ++ n)))

/-- `FileReader.scan_directory`.  The result dictionary is initialised
with both keys before the `try` block; `failAfter = some k` models a
traversal exception raised after `k` successful appends, which the
`except` catches, returning the partial dictionary. -/
def scanDirectory (fp : String → Option ℚ) (d : Disk) (directory : String)
    (failAfter : Option ℕ) : List (String × List MFile) :=
  let tfiles := readAllTxt fp d (directory ++ "/sıcaklık")
  let hfiles := readAllTxt fp d (directory ++ "/nem")
  match failAfter with
  | none => [("temperature", tfiles), ("humidity", hfiles)]
  | some k => [("temperature", tfiles.take k), ("humidity", hfiles.take (k - tfiles.length))]

/-! ## Auxiliary definitions for the statements below -/

/-- The metadata line as the specification words it (after amendment):
each field replaced by `"unknown"` when absent. -/
def metadataLineSpec (idv tyv locv datev : Option String) : String :=
  "id:" ++ idv.getD "unknown" ++ " ölçüm: " ++ tyv.getD "unknown" ++
  " - yer: " ++ locv.getD "unknown" ++ " - tarih: " ++ datev.getD "unknown"

/-- A data line that `read_file`'s loop survives: either skipped (blank
or comma-free) or parsed into a measurement. -/
def lineGood (fp : String → Option ℚ) (l : String) : Bool :=
  let line := pyStrip l
  if line ≠ "" ∧ strContains line "," then
    ((pySplit line ",").length == 2) && (fp (pyStrip ((pySplit line ",").getD 1 ""))).isSome
  else true

/-- A data line on which `read_file`'s loop raises: non-blank, has a
comma, and either the comma-split is not a pair (unpacking `ValueError`)
or the value part fails `float()`. -/
def badLine (fp : String → Option ℚ) (l : String) : Prop :=
  pyStrip l ≠ "" ∧ strContains (pyStrip l) "," = true ∧
    ((pySplit (pyStrip l) ",").length ≠ 2 ∨
      fp (pyStrip ((pySplit (pyStrip l) ",").getD 1 "")) = none)

/-- Content of the last write to `p` in a trace, if any. -/
def lastWrite (p : String) : List (String × String) → Option String
  | [] => none
  | w :: t =>
    match lastWrite p t with
    | some c => some c
    | none => if w.1 = p then some w.2 else none

/-- Degenerate float square root used to instantiate witnesses. -/
def fsqrtZero : ℚ → ℚ := fun _ => 0

/-- Degenerate float renderer used to instantiate witnesses. -/
def pyStrEmpty : ℚ → String := fun _ => ""

/-- Oracle where no `open()` fails. -/
def noFail : String → Option String := fun _ => none

/-- Oracle where every `open()` raises with message `"boom"`. -/
def failBoom : String → Option String := fun _ => some "boom"

/-- Concrete float parser for witnesses: accepts `"1"` only. -/
def fpOne : String → Option ℚ := fun s => if s = "1" then some 1 else none

/-- Concrete measurement file for witnesses. -/
def mfileExample : MFile :=
  ⟨"d/sıcaklık/a.txt", [("id", "1"), ("type", "t")], [⟨"08:00", 10⟩, ⟨"09:00", 20⟩]⟩

/-! # Theorems -/

/-! ## Shared lemmas -/

/-- After `set_strategy`, the context simply delegates; the processor
model therefore calls the strategy's `calculate` directly. -/
theorem calculatorContextCalculate_some (s : Strategy) (values : List ℚ) :
    calculatorContextCalculate (some s) values = some (s.calculate values) := rfl

/-- `dict.get` is `lookup` with a default. -/
theorem dictGet_eq_getD (d : List (String × String)) (k v : String) :
    dictGet d k v = (d.lookup k).getD v := by
  unfold dictGet
  cases d.lookup k <;> rfl

/-! ## C10 — scan_directory always returns exactly the two fixed keys -/

/-- C10: for every disk layout (including missing subdirectories) and
every traversal-failure point, `scan_directory` returns a mapping whose
keys are exactly `temperature` and `humidity`, in that order, each bound
to a (possibly empty) list of measurement files. -/
theorem claim10_scan_keys (fp : String → Option ℚ) (d : Disk) (directory : String)
    (failAfter : Option ℕ) :
    (scanDirectory fp d directory failAfter).map Prod.fst = ["temperature", "humidity"] := by
  cases failAfter <;> simp [scanDirectory]

/-! ## C1 — scalar format_result -/

/-- C1 (code bug): the comment above every scalar `format_result` says a
whole number is rendered with no decimal places, but the conditional in
the f-string yields `result` in both branches and the `.2f` spec applies
to its value, so every scalar strategy renders a whole-number result with
two decimal digits; at the failing input 15 the code produces
`"avg: 15.00"`, not `"avg: 15"`. -/
theorem claim1_always_two_decimals :
    averageFormatResult 15 = "avg: 15.00" ∧ maximumFormatResult 15 = "max: 15.00" ∧
    minimumFormatResult 15 = "min: 15.00" ∧ stdevFormatResult 15 = "std: 15.00" ∧
    medianFormatResult 15 = "median: 15.00" ∧ averageFormatResult 15 ≠ "avg: 15" := by
  decide

/-! ## C4 — per-file metadata line -/

/-- C4 (counterexample): the claim's format string has no space after
`yer:` and `tarih:`, but `_format_file_metadata` writes one — on a file
with all four metadata fields the emitted line differs from the claimed
one character for character. -/
theorem claim4_counterexample :
    formatFileMetadata
        ⟨"a.txt", [("id", "1"), ("type", "t"), ("location", "L"), ("date", "D")], []⟩ =
      "id:1 ölçüm: t - yer: L - tarih: D" ∧
    formatFileMetadata
        ⟨"a.txt", [("id", "1"), ("type", "t"), ("location", "L"), ("date", "D")], []⟩ ≠
      "id:1 ölçüm: t - yer:L - tarih:D" := by
  decide

/-- C4 (amended): for every measurement file the metadata line is exactly
`id:<id or "unknown"> ölçüm: <type or "unknown"> - yer: <location or
"unknown"> - tarih: <date or "unknown">` — with a space after the `yer:`
and `tarih:` labels — substituting `"unknown"` for any absent key; in
particular a file with empty metadata renders all four placeholders. -/
theorem claim4_metadata_line (f : MFile) :
    formatFileMetadata f =
      metadataLineSpec (f.metadata.lookup "id") (f.metadata.lookup "type")
        (f.metadata.lookup "location") (f.metadata.lookup "date") ∧
    formatFileMetadata ⟨"p", [], []⟩ =
      "id:unknown ölçüm: unknown - yer: unknown - tarih: unknown" := by
  constructor
  · simp [formatFileMetadata, metadataLineSpec, dictGet_eq_getD]
  · decide

/-! ## C5 — AverageStrategy.calculate -/

/-- C5: the average is 0 on the empty sequence, `sum/count` on every
nonempty sequence, and the constant itself on every constant sequence. -/
theorem claim5_average :
    averageCalculate ([] : List ℚ) = 0 ∧
    (∀ values : List ℚ, values ≠ [] →
      averageCalculate values = values.sum / values.length) ∧
    (∀ (c : ℚ) (n : ℕ), n ≠ 0 → averageCalculate (List.replicate n c) = c) := by
  refine ⟨rfl, fun values h => by simp [averageCalculate, h], fun c n hn => ?_⟩
  have hne : List.replicate n c ≠ [] := by
    simp [List.replicate_eq_nil_iff, hn]
  rw [averageCalculate, if_neg hne, List.sum_replicate, List.length_replicate,
    nsmul_eq_mul, mul_div_cancel_left₀]
  exact_mod_cast hn

/-- C5 witness: the average of three sevens is seven. -/
theorem claim5_witness : averageCalculate (List.replicate 3 (7 : ℚ)) = 7 :=
  claim5_average.2.2 7 3 (by decide)

/-! ## C3 — process_calculations status/message pair -/

/-- C3: `process_calculations` is total (the blanket `except` catches
every exception from the loop), and its outcome is keyed on the
exception event of the loop (the error component of `procTypes`): when
no exception occurs the status is `"Success"` with the message naming
the output directory, and when an exception `e` is raised inside the
loop the status is `"Error"` with exactly that failure description
embedded in the message. -/
theorem claim3_process_status (fsqrt : ℚ → ℚ) (pyStr : ℚ → String)
    (failOn : String → Option String) (directory : String)
    (measurementFiles : List (String × List MFile)) (operations : List String)
    (useGlobal : Bool) :
    ((procTypes fsqrt pyStr failOn (directory ++ "/result") useGlobal operations
        measurementFiles).2 = none →
      (processCalculations fsqrt pyStr failOn directory measurementFiles operations
        useGlobal).status = "Success" ∧
      (processCalculations fsqrt pyStr failOn directory measurementFiles operations
        useGlobal).message =
        "The calculations were successfully performed. Folder containing results: " ++
          (directory ++ "/result")) ∧
    (∀ e, (procTypes fsqrt pyStr failOn (directory ++ "/result") useGlobal operations
        measurementFiles).2 = some e →
      (processCalculations fsqrt pyStr failOn directory measurementFiles operations
        useGlobal).status = "Error" ∧
      (processCalculations fsqrt pyStr failOn directory measurementFiles operations
        useGlobal).message =
        "An error occurred during the calculation: " ++ e ++ ". Please try again.") := by
  constructor
  · intro h
    rcases hp : procTypes fsqrt pyStr failOn (directory ++ "/result") useGlobal operations
        measurementFiles with ⟨ws, err⟩
    rw [hp] at h
    replace h : err = none := h
    subst h
    constructor <;> simp [processCalculations, hp]
  · intro e h
    rcases hp : procTypes fsqrt pyStr failOn (directory ++ "/result") useGlobal operations
        measurementFiles with ⟨ws, err⟩
    rw [hp] at h
    replace h : err = some e := h
    subst h
    constructor <;> simp [processCalculations, hp]

/-- C3 witness: with the never-failing oracle the concrete run reports
`"Success"`, and with the oracle that makes the first `open()` raise
`"boom"` it reports `"Error"` with `boom` embedded in the message. -/
theorem claim3_witness :
    (processCalculations fsqrtZero pyStrEmpty noFail "d" [("temperature", [mfileExample])]
      ["average"] true).status = "Success" ∧
    (processCalculations fsqrtZero pyStrEmpty failBoom "d" [("temperature", [mfileExample])]
      ["average"] true).status = "Error" ∧
    (processCalculations fsqrtZero pyStrEmpty failBoom "d" [("temperature", [mfileExample])]
      ["average"] true).message =
      "An error occurred during the calculation: " ++ "boom" ++ ". Please try again." :=
  ⟨((claim3_process_status fsqrtZero pyStrEmpty noFail "d" [("temperature", [mfileExample])]
      ["average"] true).1 rfl).1,
   ((claim3_process_status fsqrtZero pyStrEmpty failBoom "d" [("temperature", [mfileExample])]
      ["average"] true).2 "boom" rfl).1,
   ((claim3_process_status fsqrtZero pyStrEmpty failBoom "d" [("temperature", [mfileExample])]
      ["average"] true).2 "boom" rfl).2⟩

/-! ## C2 — StandardDeviationStrategy.calculate -/

/-- The sample variance of the spec's example list is `32/7` (mean 5,
squared deviations summing to 32, divided by `n - 1 = 7`). -/
theorem sampleVariance_example :
    sampleVariance [2, 4, 4, 4, 5, 5, 7, 9] = 32 / 7 := by
  norm_num [sampleVariance]

/-- The sample variance of at least two values is nonnegative. -/
theorem sampleVariance_nonneg (values : List ℚ) (h : 2 ≤ values.length) :
    0 ≤ sampleVariance values := by
  unfold sampleVariance
  apply div_nonneg
  · apply List.sum_nonneg
    intro x hx
    simp only [List.mem_map] at hx
    obtain ⟨y, _, rfl⟩ := hx
    exact sq_nonneg _
  · have h2 : (2 : ℚ) ≤ values.length := by exact_mod_cast h
    linarith

/-- C2 (counterexample): on `[2,4,4,4,5,5,7,9]` the code returns the
sample standard deviation `√(32/7) ≈ 2.138`, which is not the claimed
2.0 (2.0 is the population standard deviation of that list). -/
theorem claim2_counterexample :
    stdevCalculate [2, 4, 4, 4, 5, 5, 7, 9] ≠ 2 := by
  have hlen : ¬ ([2, 4, 4, 4, 5, 5, 7, 9] : List ℚ).length < 2 := by decide
  unfold stdevCalculate
  rw [if_neg hlen, sampleVariance_example]
  intro h
  have h0 : (0 : ℝ) ≤ ((32 / 7 : ℚ) : ℝ) := by norm_num
  have h2 := Real.sq_sqrt h0
  rw [h] at h2
  norm_num at h2

/-- C2 (amended): fewer than 2 values yield 0; at least 2 values yield
the nonnegative square root of the sample variance; on the example list
the result is `√(32/7)`, the sample standard deviation. -/
theorem claim2_stdev_sample :
    (∀ values : List ℚ, values.length < 2 → stdevCalculate values = 0) ∧
    (∀ values : List ℚ, 2 ≤ values.length →
      0 ≤ stdevCalculate values ∧
        stdevCalculate values ^ 2 = ((sampleVariance values : ℚ) : ℝ)) ∧
    stdevCalculate [2, 4, 4, 4, 5, 5, 7, 9] = Real.sqrt ((32 : ℝ) / 7) := by
  refine ⟨fun values h => by simp [stdevCalculate, h], fun values h => ?_, ?_⟩
  · have hlt : ¬ values.length < 2 := not_lt.mpr h
    unfold stdevCalculate
    rw [if_neg hlt]
    exact ⟨Real.sqrt_nonneg _,
      Real.sq_sqrt (by exact_mod_cast sampleVariance_nonneg values h)⟩
  · have hlen : ¬ ([2, 4, 4, 4, 5, 5, 7, 9] : List ℚ).length < 2 := by decide
    unfold stdevCalculate
    rw [if_neg hlen, sampleVariance_example]
    norm_num

/-- C2 witness: a single value has standard deviation 0. -/
theorem claim2_witness : stdevCalculate [(5 : ℚ)] = 0 :=
  claim2_stdev_sample.1 [5] (by decide)

/-! ## C7 — parse_metadata is total and keyed within the fixed set -/

/-- C7: `parse_metadata` (total by construction — it is a Lean function,
and each Python indexing it performs is guarded by the membership test
before it) returns a mapping whose keys are among
`{id, type, location, date}`; the `location` (resp. `date`) key can only
be present when the ` - `-split header actually has a second
(resp. third) segment, i.e. absent segments are omitted. -/
theorem claim7_parse_metadata_total (h : String) :
    ((parseMetadata h).map Prod.fst ⊆ ["id", "type", "location", "date"]) ∧
    ("location" ∈ (parseMetadata h).map Prod.fst →
      1 < (pySplit (pyStrip h) " - ").length) ∧
    ("date" ∈ (parseMetadata h).map Prod.fst →
      2 < (pySplit (pyStrip h) " - ").length) := by
  simp only [parseMetadata]
  split_ifs <;> simp_all [List.subset_def]

/-- C7 witness: on a fully formed header all four keys appear, the split
has three segments, and the keys are within the fixed set. -/
theorem claim7_witness :
    1 < (pySplit (pyStrip "id:1 ölçüm: a - yer:b - tarih:c") " - ").length ∧
    2 < (pySplit (pyStrip "id:1 ölçüm: a - yer:b - tarih:c") " - ").length ∧
    (parseMetadata "id:1 ölçüm: a - yer:b - tarih:c").map Prod.fst ⊆
      ["id", "type", "location", "date"] :=
  ⟨(claim7_parse_metadata_total "id:1 ölçüm: a - yer:b - tarih:c").2.1 (by decide),
   (claim7_parse_metadata_total "id:1 ölçüm: a - yer:b - tarih:c").2.2 (by decide),
   (claim7_parse_metadata_total "id:1 ölçüm: a - yer:b - tarih:c").1⟩

/-! ## C9 — read_file keeps only the measurements before a bad line -/

/-- The line loop keeps exactly the measurements parsed before the first
raising line: every earlier line is either skipped or parsed, and the bad
line's exception abandons the whole remainder. -/
theorem parseLines_append_bad (fp : String → Option ℚ) (pre rest : List String)
    (bad : String) (hpre : ∀ l ∈ pre, lineGood fp l = true) (hbad : badLine fp bad) :
    parseLines fp (pre ++ bad :: rest) = parseLines fp pre := by
  induction pre with
  | nil =>
    obtain ⟨h1, h2, h3⟩ := hbad
    simp only [List.nil_append, parseLines]
    rw [if_pos ⟨h1, h2⟩]
    rcases h3 with h3 | h3
    · rw [if_neg h3]
    · by_cases hl : (pySplit (pyStrip bad) ",").length = 2
      · rw [if_pos hl, h3]
      · rw [if_neg hl]
  | cons l pre ih =>
    have hgood := hpre l (List.mem_cons_self l pre)
    have hrest : ∀ x ∈ pre, lineGood fp x = true :=
      fun x hx => hpre x (List.mem_cons_of_mem l hx)
    simp only [List.cons_append, parseLines]
    by_cases hc : pyStrip l ≠ "" ∧ strContains (pyStrip l) "," = true
    · unfold lineGood at hgood
      rw [if_pos hc] at hgood
      simp only [Bool.and_eq_true, beq_iff_eq, Option.isSome_iff_exists] at hgood
      obtain ⟨hlen, v, hv⟩ := hgood
      rw [if_pos hc, if_pos hc, if_pos hlen, if_pos hlen, hv]
      simp only [List.append_eq]
      rw [ih hrest]
    · rw [if_neg hc, if_neg hc]
      exact ih hrest

/-- C9: when a data line has more than one comma or an unparsable value,
`read_file` catches the exception and returns only the measurements from
the lines before the offending one, abandoning the remainder of the file
(while keeping the already-parsed header metadata). -/
theorem claim9_read_file_aborts (fp : String → Option ℚ) (path header : String)
    (pre : List String) (bad : String) (rest : List String)
    (hpre : ∀ l ∈ pre, lineGood fp l = true) (hbad : badLine fp bad) :
    readFile fp path (some (header :: (pre ++ bad :: rest))) =
      ⟨path, parseMetadata header, parseLines fp pre⟩ := by
  simp only [readFile]
  rw [parseLines_append_bad fp pre rest bad hpre hbad]

/-- C9 witness: with a parser accepting only `"1"`, the file whose third
data line is `"a,b,c"` keeps the measurement from `"t1,1"` and abandons
`"t2,1"`. -/
theorem claim9_witness :
    readFile fpOne "p" (some ["id:1 ölçüm: t", "t1,1", "a,b,c", "t2,1"]) =
      ⟨"p", parseMetadata "id:1 ölçüm: t", parseLines fpOne ["t1,1"]⟩ :=
  claim9_read_file_aborts fpOne "p" "id:1 ölçüm: t" ["t1,1"] "a,b,c" ["t2,1"]
    (by decide) ⟨by decide, by decide, Or.inl (by decide)⟩

/-! ## C8 — running the pipeline twice leaves byte-identical reports -/

/-- Looking up a key distinct from the one filtered out is unchanged. -/
theorem lookup_filter_ne (fs : List (String × String)) (a p : String) (h : ¬ a = p) :
    List.lookup p (fs.filter (fun e => !(e.1 == a))) = List.lookup p fs := by
  have hpa : (p == a) = false := beq_eq_false_iff_ne.mpr (fun hq => h hq.symm)
  induction fs with
  | nil => rfl
  | cons e t ih =>
    by_cases he : e.1 = a
    · have h1 : (!(e.1 == a)) = false := by simp [he]
      have h2 : (p == e.1) = false := by rw [he]; exact hpa
      simp [List.filter_cons, h1, List.lookup, h2, ih]
    · have h1 : (!(e.1 == a)) = true := by simp [he]
      by_cases hpe : p = e.1
      · simp [List.filter_cons, h1, List.lookup, hpe]
      · have h2 : (p == e.1) = false := beq_eq_false_iff_ne.mpr hpe
        simp [List.filter_cons, h1, List.lookup, h2, ih]

/-- `fsGet` after one write. -/
theorem fsGet_fsSet (fs : List (String × String)) (a c p : String) :
    fsGet (fsSet fs a c) p = if a = p then some c else fsGet fs p := by
  by_cases h : a = p
  · subst h
    simp [fsGet, fsSet, List.lookup]
  · have hpa : (p == a) = false := beq_eq_false_iff_ne.mpr (fun hq => h hq.symm)
    simp [fsGet, fsSet, List.lookup, hpa, h, lookup_filter_ne fs a p h]

/-- After replaying a trace, a file holds the last content written to it
by the trace, or its previous content if the trace never touches it. -/
theorem fsGet_applyWrites (t : List (String × String)) (fs : List (String × String))
    (p : String) :
    fsGet (applyWrites fs t) p =
      match lastWrite p t with
      | some c => some c
      | none => fsGet fs p := by
  induction t generalizing fs with
  | nil => rfl
  | cons w t ih =>
    simp only [applyWrites, lastWrite]
    rw [ih]
    cases hlw : lastWrite p t with
    | some c => rfl
    | none =>
      rw [fsGet_fsSet]
      by_cases h : w.1 = p <;> simp [h]

/-- C8: with identical inputs and `use_global = True`, the second run
produces the same write trace and `open(..., "w")` overwrites each report
file with the same bytes — after the second run every file's content
equals its content after the first run. -/
theorem claim8_idempotent (fsqrt : ℚ → ℚ) (pyStr : ℚ → String)
    (failOn : String → Option String) (directory : String)
    (measurementFiles : List (String × List MFile)) (operations : List String)
    (fs0 : List (String × String)) (p : String) :
    fsGet (applyWrites
        (applyWrites fs0
          (processCalculations fsqrt pyStr failOn directory measurementFiles operations
            true).writes)
        (processCalculations fsqrt pyStr failOn directory measurementFiles operations
          true).writes) p =
      fsGet (applyWrites fs0
        (processCalculations fsqrt pyStr failOn directory measurementFiles operations
          true).writes) p := by
  rw [fsGet_applyWrites, fsGet_applyWrites]
  cases lastWrite p
      (processCalculations fsqrt pyStr failOn directory measurementFiles operations
        true).writes <;> rfl

/-! ## C6 — unrecognized operation names are silently skipped -/

/-- Inserting an operation that resolves to no strategy anywhere in the
operation list leaves the inner loop's writes and outcome unchanged. -/
theorem procOps_skip_unknown (fsqrt : ℚ → ℚ) (pyStr : ℚ → String)
    (failOn : String → Option String) (outputDir : String) (useGlobal : Bool)
    (mt : String) (files : List MFile) (op : String)
    (h : createCalculator fsqrt op = none) (ops1 ops2 : List String) :
    procOps fsqrt pyStr failOn outputDir useGlobal mt files (ops1 ++ op :: ops2) =
      procOps fsqrt pyStr failOn outputDir useGlobal mt files (ops1 ++ ops2) := by
  induction ops1 with
  | nil =>
    simp only [List.nil_append, procOps, h]
  | cons o ops1 ih =>
    simp only [List.cons_append, procOps]
    cases hc : createCalculator fsqrt o with
    | none => exact ih
    | some strat =>
      simp only [List.append_eq]
      simp only [List.append_eq] at ih
      simp only [ih]

/-- The same, lifted over the outer measurement-type loop. -/
theorem procTypes_skip_unknown (fsqrt : ℚ → ℚ) (pyStr : ℚ → String)
    (failOn : String → Option String) (outputDir : String) (useGlobal : Bool)
    (op : String) (h : createCalculator fsqrt op = none) (ops1 ops2 : List String)
    (mfs : List (String × List MFile)) :
    procTypes fsqrt pyStr failOn outputDir useGlobal (ops1 ++ op :: ops2) mfs =
      procTypes fsqrt pyStr failOn outputDir useGlobal (ops1 ++ ops2) mfs := by
  induction mfs with
  | nil => rfl
  | cons e rest ih =>
    obtain ⟨mt, files⟩ := e
    simp only [procTypes]
    by_cases hf : files.isEmpty = true
    · rw [if_pos hf, if_pos hf]
      exact ih
    · rw [if_neg hf, if_neg hf,
        procOps_skip_unknown fsqrt pyStr failOn outputDir useGlobal mt files op h ops1 ops2]
      rcases hp : procOps fsqrt pyStr failOn outputDir useGlobal mt files (ops1 ++ ops2)
        with ⟨ws, err⟩
      cases err with
      | some e => rfl
      | none => simp only [ih]

/-- With an oracle under which no `open()` fails, the inner loop never
reports an exception. -/
theorem procOps_noFail (fsqrt : ℚ → ℚ) (pyStr : ℚ → String) (outputDir : String)
    (useGlobal : Bool) (mt : String) (files : List MFile) (ops : List String) :
    (procOps fsqrt pyStr noFail outputDir useGlobal mt files ops).2 = none := by
  induction ops with
  | nil => rfl
  | cons op rest ih =>
    simp only [procOps]
    cases hc : createCalculator fsqrt op with
    | none => exact ih
    | some strat =>
      simp only [writeFileResult, writeGlobalResult, noFail]
      cases useGlobal with
      | false => simp [ih]
      | true => split_ifs <;> simp [ih]

/-- With an oracle under which no `open()` fails, the whole loop never
reports an exception. -/
theorem procTypes_noFail (fsqrt : ℚ → ℚ) (pyStr : ℚ → String) (outputDir : String)
    (useGlobal : Bool) (ops : List String) (mfs : List (String × List MFile)) :
    (procTypes fsqrt pyStr noFail outputDir useGlobal ops mfs).2 = none := by
  induction mfs with
  | nil => rfl
  | cons e rest ih =>
    obtain ⟨mt, files⟩ := e
    simp only [procTypes]
    by_cases hf : files.isEmpty = true
    · rw [if_pos hf]
      exact ih
    · rw [if_neg hf]
      rcases hp : procOps fsqrt pyStr noFail outputDir useGlobal mt files ops with ⟨ws, err⟩
      have he := procOps_noFail fsqrt pyStr outputDir useGlobal mt files ops
      rw [hp] at he
      simp only at he
      subst he
      simp [ih]

/-- C6: an operation string whose lower-cased form is not one of the six
recognized identifiers resolves to no strategy in
`CalculatorFactory.create_calculator`; inserting such an operation
anywhere in the requested list changes neither the run's writes (so no
report is produced for it) nor its status/message; and when no I/O
failure occurs the status is `"Success"` (in particular when the other
requested operations are valid). -/
theorem claim6_unknown_op_skipped (fsqrt : ℚ → ℚ) :
    (∀ s : String,
        pyLower s ∉ (["average", "maximum", "minimum", "standard_deviation",
            "frequency", "median"] : List String) →
        createCalculator fsqrt s = none) ∧
    (∀ (pyStr : ℚ → String) (failOn : String → Option String) (directory : String)
        (measurementFiles : List (String × List MFile)) (useGlobal : Bool)
        (op : String) (ops1 ops2 : List String),
        createCalculator fsqrt op = none →
        processCalculations fsqrt pyStr failOn directory measurementFiles
            (ops1 ++ op :: ops2) useGlobal =
          processCalculations fsqrt pyStr failOn directory measurementFiles
            (ops1 ++ ops2) useGlobal) ∧
    (∀ (pyStr : ℚ → String) (directory : String)
        (measurementFiles : List (String × List MFile)) (operations : List String)
        (useGlobal : Bool),
        (processCalculations fsqrt pyStr noFail directory measurementFiles
          operations useGlobal).status = "Success") := by
  refine ⟨?_, ?_, ?_⟩
  · intro s hs
    simp only [List.mem_cons, List.not_mem_nil, or_false, not_or] at hs
    obtain ⟨h1, h2, h3, h4, h5, h6⟩ := hs
    simp [createCalculator, List.lookup, beq_eq_false_iff_ne.mpr h1,
      beq_eq_false_iff_ne.mpr h2, beq_eq_false_iff_ne.mpr h3, beq_eq_false_iff_ne.mpr h4,
      beq_eq_false_iff_ne.mpr h5, beq_eq_false_iff_ne.mpr h6]
  · intro pyStr failOn directory measurementFiles useGlobal op ops1 ops2 h
    simp only [processCalculations]
    rw [procTypes_skip_unknown fsqrt pyStr failOn (directory ++ "/result") useGlobal op h
      ops1 ops2 measurementFiles]
  · intro pyStr directory measurementFiles operations useGlobal
    simp only [processCalculations]
    rcases hp : procTypes fsqrt pyStr noFail (directory ++ "/result") useGlobal operations
      measurementFiles with ⟨ws, err⟩
    have he := procTypes_noFail fsqrt pyStr (directory ++ "/result") useGlobal operations
      measurementFiles
    rw [hp] at he
    simp only at he
    subst he
    rfl

/-- C6 witness: `"bogus"` resolves to no strategy; prepending it to
`["average"]` leaves the run unchanged, and the run's status is
`"Success"`. -/
theorem claim6_witness :
    createCalculator fsqrtZero "bogus" = none ∧
    processCalculations fsqrtZero pyStrEmpty noFail "d" [("temperature", [mfileExample])]
        ["bogus", "average"] true =
      processCalculations fsqrtZero pyStrEmpty noFail "d" [("temperature", [mfileExample])]
        ["average"] true ∧
    (processCalculations fsqrtZero pyStrEmpty noFail "d" [("temperature", [mfileExample])]
        ["bogus", "average"] true).status = "Success" :=
  have h := (claim6_unknown_op_skipped fsqrtZero).1 "bogus" (by decide)
  ⟨h,
   (claim6_unknown_op_skipped fsqrtZero).2.1 pyStrEmpty noFail "d"
     [("temperature", [mfileExample])] true "bogus" [] ["average"] h,
   (claim6_unknown_op_skipped fsqrtZero).2.2 pyStrEmpty "d"
     [("temperature", [mfileExample])] ["bogus", "average"] true⟩
